import Mathlib

/-!
Verification development for the rajant-cms-backend item service.

The repository snapshot contains the Express boundary layer
(`src/controllers/item.controller.ts`) and the service payload types
(`src/types/item/item.types.ts`).  Those files are embedded directly below.
The service layer itself (`src/services/item.service.ts`: filter compiler,
query planner, ownership guard, mutation validator) is not part of the
snapshot; its contract is fixed by the specification, and the definitions
for it are marked `Modelled from the spec:`.
-/

namespace RajantCMS

/-! ## JavaScript value coercions used at the controller boundary -/

/-- Result of a JavaScript numeric coercion: either NaN or an integer value.
Fractional results are outside the scope of this development; no modelled
input produces one. -/
inductive JsValueNum where
  | nan
  | num (n : Int)
deriving DecidableEq, Repr

/-- Accumulate a run of ASCII digits; `none` as soon as a non-digit
appears. -/
def parseDigitsAux : List Char → Nat → Option Nat
  | [], acc => some acc
  | c :: cs, acc =>
    if c.isDigit then parseDigitsAux cs (acc * 10 + (c.toNat - 48)) else none

/-- Parse a non-empty all-digit character list as a natural number. -/
def parseDigitsList : List Char → Option Nat
  | [] => none
  | cs => parseDigitsAux cs 0

/-- Parse a whole string as an integer: an optional leading minus sign
followed by one or more ASCII digits; anything else is `none`. -/
def parseIntStr (s : String) : Option Int :=
  match s.toList with
  | [] => none
  | '-' :: cs =>
    match parseDigitsList cs with
    | some n => some (-(n : Int))
    | none => none
  | cs => (parseDigitsList cs).map (fun n => (n : Int))

/-- JavaScript `Number(x)` applied to an optional string: `Number(undefined)`
is NaN, a well-formed integer string yields its value, anything else NaN. -/
def jsNumber : Option String → JsValueNum
  | none => .nan
  | some s =>
    match parseIntStr s with
    | some n => .num n
    | none => .nan

/-- JavaScript `String(x)` applied to an optional string: `String(undefined)`
is the literal string "undefined". -/
def jsString : Option String → String
  | none => "undefined"
  | some s => s

/-- JavaScript `parseInt` restricted to whole integer strings; a string that
is not a well-formed integer yields NaN. -/
def parseIntJs (s : String) : JsValueNum :=
  match parseIntStr s with
  | some n => .num n
  | none => .nan

/-! ## Entity enums

Modelled from the spec: the entity file
`src/database/entities/item.entity.ts` is not in the snapshot; the spec
states that `status` is a closed enum and `visibility` is the closed enum
private/public. -/

/-- Modelled from the spec: closed status enum for items; the concrete member
names stand in for the entity file's closed set. -/
inductive ItemStatus where
  | active
  | inactive
  | archived
deriving DecidableEq, Repr

/-- Parse an untrusted string as a member of the closed status enum. -/
def ItemStatus.parse : String → Option ItemStatus
  | "active" => some .active
  | "inactive" => some .inactive
  | "archived" => some .archived
  | _ => none

/-- Modelled from the spec: closed visibility enum private/public. -/
inductive ItemVisibility where
  | priv
  | pub
deriving DecidableEq, Repr

/-- Parse an untrusted string as a member of the closed visibility enum. -/
def ItemVisibility.parse : String → Option ItemVisibility
  | "private" => some .priv
  | "public" => some .pub
  | _ => none

/-! ## HTTP status codes (from `src/types/http-status-codes`, standard values) -/

def StatusCode.OK : Nat := 200

def StatusCode.CREATED : Nat := 201

def StatusCode.INTERNAL_SERVER_ERROR : Nat := 500

/-! ## Controller embedding (from `src/controllers/item.controller.ts`) -/

/-- The authenticated user attached to the request by the identity
middleware (`req.user`). -/
structure User where
  id : Nat
deriving DecidableEq, Repr

/-- The request body keys the handlers destructure, plus the `content` key
that the declared payload types mention; `req.body` is an open JSON object,
each key optionally present. -/
structure ReqBody where
  title : Option String
  description : Option String
  status : Option String
  visibility : Option String
  content : Option String
deriving DecidableEq, Repr

/-- The parts of the Express request the item handlers read. -/
structure Req where
  user : Option User
  query : List (String × String)
  paramsId : String
  body : ReqBody
deriving DecidableEq, Repr

/-- How the awaited service promise settles: resolves with a value, or
throws (rejects). -/
inductive Settled (α : Type) where
  | resolves (v : α)
  | throws
deriving DecidableEq, Repr

/-- The discriminated service response shape the handlers branch on via
`response.result === 'success'`. -/
inductive SvcOutcome (α : Type) where
  | success (value : α)
  | failure (statusCode : Nat) (error : String)
deriving DecidableEq, Repr

/-- The JSON body a handler responds with: the raw service payload, the
service failure's error value, or a fixed catch-block message. -/
inductive ResBody (α : Type) where
  | payload (v : α)
  | errBody (e : String)
  | message (s : String)
deriving DecidableEq, Repr

/-- What a handler invocation produces: the HTTP status, the JSON body, and
whether the service collaborator was invoked at all. -/
structure HandlerResult (α : Type) where
  status : Nat
  body : ResBody α
  serviceCalled : Bool
deriving DecidableEq, Repr

/-- Query-string lookup: value of the first entry with the given key,
mirroring `req.query[k]`. -/
def lookupQ (q : List (String × String)) (k : String) : Option String :=
  (q.find? (fun kv => kv.1 == k)).map Prod.snd

/-- The structural keys the list handler deletes from the query object
before forwarding it as a filter (`excludedFields` in the source). -/
def excludedFields : List String := ["page", "sort", "limit"]

/-- Drop the structural keys from a raw query object, as
`excludedFields.forEach(x => delete queryObj[x])` does. -/
def stripStructural (q : List (String × String)) : List (String × String) :=
  q.filter (fun kv => !(excludedFields.contains kv.1))

/-- The argument object `listItems` passes to `itemService.getItems`:
coerced page/limit/sort plus the JSON-stringified residual query object
(carried here as the residual association list itself). -/
structure GetItemsArgs where
  userId : Nat
  page : JsValueNum
  limit : JsValueNum
  sort : String
  whereClause : List (String × String)
deriving DecidableEq, Repr

/-- Build the `getItems` call arguments from the request, as the `listItems`
handler does at its call site. -/
def listCallArgs (u : User) (req : Req) : GetItemsArgs :=
  { userId := u.id
    page := jsNumber (lookupQ req.query "page")
    limit := jsNumber (lookupQ req.query "limit")
    sort := jsString (lookupQ req.query "sort")
    whereClause := stripStructural req.query }

/-- The `listItems` handler: throws (caught as 500) when `req.user` is
unset; otherwise forwards the service's resolved value verbatim with
status 200, with no branch on any outcome discriminant. -/
def listItemsCtrl {α : Type} (req : Req) (svc : GetItemsArgs → Settled α) :
    HandlerResult α :=
  match req.user with
  | none =>
    ⟨StatusCode.INTERNAL_SERVER_ERROR, .message "Failed to fetch list of items.", false⟩
  | some u =>
    match svc (listCallArgs u req) with
    | .resolves v => ⟨StatusCode.OK, .payload v, true⟩
    | .throws =>
      ⟨StatusCode.INTERNAL_SERVER_ERROR, .message "Failed to fetch list of items.", true⟩

/-- The `getItemById` handler. -/
def getItemByIdCtrl {α : Type} (req : Req)
    (svc : JsValueNum → Nat → Settled (SvcOutcome α)) : HandlerResult α :=
  match req.user with
  | none => ⟨StatusCode.INTERNAL_SERVER_ERROR, .message "Failed to fetch item.", false⟩
  | some u =>
    match svc (parseIntJs req.paramsId) u.id with
    | .resolves (.success v) => ⟨StatusCode.OK, .payload v, true⟩
    | .resolves (.failure sc e) => ⟨sc, .errBody e, true⟩
    | .throws => ⟨StatusCode.INTERNAL_SERVER_ERROR, .message "Failed to fetch item.", true⟩

/-- The argument object `createItem` passes to `itemService.createItem`: the
handler destructures `title, description, status, visibility` from the body
and forwards a `description` key; no `content` key is built. -/
structure CreateCallArgs where
  userId : Nat
  title : Option String
  description : Option String
  status : Option String
  visibility : Option String
deriving DecidableEq, Repr

/-- Build the `createItem` call arguments from the body, as the handler's
call site does. -/
def createCallArgs (u : User) (b : ReqBody) : CreateCallArgs :=
  { userId := u.id
    title := b.title
    description := b.description
    status := b.status
    visibility := b.visibility }

/-- The `createItem` handler. -/
def createItemCtrl {α : Type} (req : Req)
    (svc : CreateCallArgs → Settled (SvcOutcome α)) : HandlerResult α :=
  match req.user with
  | none => ⟨StatusCode.INTERNAL_SERVER_ERROR, .message "Failed to save item.", false⟩
  | some u =>
    match svc (createCallArgs u req.body) with
    | .resolves (.success v) => ⟨StatusCode.CREATED, .payload v, true⟩
    | .resolves (.failure sc e) => ⟨sc, .errBody e, true⟩
    | .throws => ⟨StatusCode.INTERNAL_SERVER_ERROR, .message "Failed to save item.", true⟩

/-- The payload object `updateItem` passes to `itemService.updateItem`: the
four optionally-present body keys it reads, again with a `description` key
and no `content` key. -/
structure UpdateCallArgs where
  title : Option String
  description : Option String
  status : Option String
  visibility : Option String
deriving DecidableEq, Repr

/-- Build the `updateItem` call payload from the body, as the handler's call
site does. -/
def updateCallArgs (b : ReqBody) : UpdateCallArgs :=
  { title := b.title
    description := b.description
    status := b.status
    visibility := b.visibility }

/-- The `updateItem` handler. -/
def updateItemCtrl {α : Type} (req : Req)
    (svc : JsValueNum → Nat → UpdateCallArgs → Settled (SvcOutcome α)) :
    HandlerResult α :=
  match req.user with
  | none => ⟨StatusCode.INTERNAL_SERVER_ERROR, .message "Failed to update item.", false⟩
  | some u =>
    match svc (parseIntJs req.paramsId) u.id (updateCallArgs req.body) with
    | .resolves (.success v) => ⟨StatusCode.OK, .payload v, true⟩
    | .resolves (.failure sc e) => ⟨sc, .errBody e, true⟩
    | .throws =>
      ⟨StatusCode.INTERNAL_SERVER_ERROR, .message "Failed to update item.", true⟩

/-- The `deleteItem` handler. -/
def deleteItemCtrl {α : Type} (req : Req)
    (svc : JsValueNum → Nat → Settled (SvcOutcome α)) : HandlerResult α :=
  match req.user with
  | none => ⟨StatusCode.INTERNAL_SERVER_ERROR, .message "Failed to delete item.", false⟩
  | some u =>
    match svc (parseIntJs req.paramsId) u.id with
    | .resolves (.success v) => ⟨StatusCode.OK, .payload v, true⟩
    | .resolves (.failure sc e) => ⟨sc, .errBody e, true⟩
    | .throws =>
      ⟨StatusCode.INTERNAL_SERVER_ERROR, .message "Failed to delete item.", true⟩

/-! ## Declared service payload types (from `src/types/item/item.types.ts`) -/

/-- The declared create payload type: note it carries a `content` field,
while the controller call site builds a `description` key. -/
structure CreateItemPayload where
  userId : Nat
  title : String
  content : String
  status : ItemStatus
  visibility : ItemVisibility
deriving DecidableEq, Repr

/-- The declared update payload type: every field optional, again carrying
`content` where the controller forwards `description`. -/
structure UpdateItemPayload where
  title : Option String
  content : Option String
  status : Option ItemStatus
  visibility : Option ItemVisibility
deriving DecidableEq, Repr

/-! ## Outcome model

Modelled from the spec: `src/services/item.service.ts` is not in the
snapshot; the Outcome model, filter compiler, query planner, ownership
guard and mutation validator below follow sections 3, 4 and 7 of the spec. -/

/-- Modelled from the spec: the closed set of machine-readable failure
categories surfaced by the service core. -/
inductive ErrorKind where
  | invalidFilter
  | invalidPayload
  | notFound
  | internal
deriving DecidableEq, Repr

/-- Modelled from the spec: the two-variant result carried by every service
operation — success with a typed payload, or failure with an error kind,
transport status code, and message. -/
inductive Outcome (α : Type) where
  | success (value : α)
  | failure (kind : ErrorKind) (statusCode : Nat) (message : String)
deriving DecidableEq, Repr

/-- The single NotFound failure value, shared by the genuinely-absent and the
not-authorized paths so the two are indistinguishable at the interface. -/
def notFoundFailure {α : Type} : Outcome α :=
  .failure .notFound 404 "Item not found."

/-! ## Filter compiler (modelled from the spec, section 4.1) -/

/-- Modelled from the spec: the fixed allow-list of filterable item fields
(created/updated-at filtering is excluded, per the controller's note). -/
def allowedFilterFields : List String := ["title", "status", "visibility"]

/-- A coerced filter constraint over one allow-listed field. -/
inductive FieldConstraint where
  | str (s : String)
  | status (s : ItemStatus)
  | visibility (v : ItemVisibility)
deriving DecidableEq, Repr

/-- A validated filter: a set of per-field constraints; the empty list is the
distinct "no filter" state. -/
abbrev Filter : Type := List (String × FieldConstraint)

/-- Modelled from the spec: coerce a raw value to the declared type of its
allow-listed field (string for title, enum membership for status and
visibility); `none` on a coercion failure or a non-allow-listed key. -/
def coerceField (k v : String) : Option FieldConstraint :=
  if k = "title" then some (.str v)
  else if k = "status" then (ItemStatus.parse v).map .status
  else if k = "visibility" then (ItemVisibility.parse v).map .visibility
  else none

/-- Modelled from the spec: compile the residual (structural-keys-stripped)
query entries; any key outside the allow-list, or any coercion failure,
rejects the whole filter with Failure(InvalidFilter, 400). -/
def compileEntries : List (String × String) → Outcome Filter
  | [] => .success []
  | (k, v) :: rest =>
    if k ∈ allowedFilterFields then
      match coerceField k v with
      | some c =>
        match compileEntries rest with
        | .success f => .success ((k, c) :: f)
        | .failure kind sc m => .failure kind sc m
      | none => .failure .invalidFilter 400 ("Invalid filter value for field: " ++ k)
    else .failure .invalidFilter 400 ("Invalid filter field: " ++ k)

/-- Modelled from the spec: the filter compiler contract
`compile(rawQuery) -> Outcome<Filter>`; strips the structural keys page,
sort, limit before interpretation. -/
def compile (raw : List (String × String)) : Outcome Filter :=
  compileEntries (stripStructural raw)

/-! ## Query planner (modelled from the spec, section 4.2) -/

/-- Modelled from the spec: the default page size used when the caller
supplies no usable limit. -/
def DEFAULT_LIMIT : Int := 10

/-- Modelled from the spec: the hard cap on page size; larger requests are
clamped, never rejected. -/
def MAX_LIMIT : Int := 100

/-- Modelled from the spec: the fields a listing may sort by. -/
def sortableFields : List String := ["title", "status", "createdAt", "updatedAt"]

/-- Modelled from the spec: the fixed fallback sort field for unrecognized
sort keys. -/
def defaultSortField : String := "createdAt"

/-- Modelled from the spec: a sort key is a field name optionally prefixed
with a direction marker; unrecognized field names fall back to the default
field and direction rather than failing. -/
def parseSort (s : String) : String × Bool :=
  let descending := s.startsWith "-"
  let field := if descending then s.drop 1 else s
  if field ∈ sortableFields then (field, descending) else (defaultSortField, false)

/-- Modelled from the spec: plan.page — absent or non-numeric input arrives
as NaN and defaults to 1, as does any value below 1. -/
def planPage : JsValueNum → Int
  | .nan => 1
  | .num n => if n < 1 then 1 else n

/-- Modelled from the spec: plan.limit — absent, non-numeric, or below-1
input defaults to DEFAULT_LIMIT; anything above MAX_LIMIT is clamped. -/
def planLimit : JsValueNum → Int
  | .nan => DEFAULT_LIMIT
  | .num n => if n < 1 then DEFAULT_LIMIT else min n MAX_LIMIT

/-- Modelled from the spec: the fully resolved, bounded description of a
listing query. -/
structure FetchPlan where
  filter : Filter
  sortField : String
  sortDescending : Bool
  page : Int
  limit : Int

/-- Modelled from the spec: the query planner contract
`plan(filter, page, limit, sort) -> FetchPlan`. -/
def plan (f : Filter) (page limit : JsValueNum) (sort : String) : FetchPlan :=
  { filter := f
    sortField := (parseSort sort).1
    sortDescending := (parseSort sort).2
    page := planPage page
    limit := planLimit limit }

/-! ## Items, the store, and the ownership guard (spec sections 3 and 4.3) -/

/-- Modelled from the spec: the managed item record. -/
structure Item where
  id : Nat
  owner : Nat
  title : String
  content : Option String
  status : ItemStatus
  visibility : ItemVisibility
  createdAt : Nat
  updatedAt : Nat
deriving DecidableEq, Repr

/-- Fetch-by-id over the persisted store: first record with the given id. -/
def findById : List Item → Nat → Option Item
  | [], _ => none
  | it :: rest, id => if it.id == id then some it else findById rest id

/-- Single-row replacement of the first record with the given id. -/
def replaceById : List Item → Nat → Item → List Item
  | [], _, _ => []
  | it :: rest, id, new => if it.id == id then new :: rest else it :: replaceById rest id new

/-- Single-row removal of the first record with the given id. -/
def removeById : List Item → Nat → List Item
  | [], _ => []
  | it :: rest, id => if it.id == id then rest else it :: removeById rest id

/-- Modelled from the spec: read authorization — public visibility or
ownership. -/
def authorizeRead (it : Item) (requester : Nat) : Bool :=
  it.visibility == .pub || it.owner == requester

/-- Modelled from the spec: write authorization — ownership only; visibility
is irrelevant. -/
def authorizeWrite (it : Item) (requester : Nat) : Bool :=
  it.owner == requester

/-- Modelled from the spec: getById — fetch by id, then the read guard; both
an absent id and a read-authorization failure yield the same
Failure(NotFound, 404) value. -/
def getItemByIdSvc (store : List Item) (id requester : Nat) : Outcome Item :=
  match findById store id with
  | none => notFoundFailure
  | some it => if authorizeRead it requester then .success it else notFoundFailure

/-! ## Mutation validator and write operations (spec sections 4.4 and 4.5) -/

/-- Modelled from the spec: validate an optionally-present status value's
enum membership. -/
def validateStatusField : Option String → Outcome (Option ItemStatus)
  | none => .success none
  | some s =>
    match ItemStatus.parse s with
    | some st => .success (some st)
    | none => .failure .invalidPayload 400 "Invalid item status."

/-- Modelled from the spec: validate an optionally-present visibility
value's enum membership. -/
def validateVisibilityField : Option String → Outcome (Option ItemVisibility)
  | none => .success none
  | some s =>
    match ItemVisibility.parse s with
    | some v => .success (some v)
    | none => .failure .invalidPayload 400 "Invalid item visibility."

/-- The untrusted create payload as it reaches the validator. -/
structure RawCreatePayload where
  userId : Nat
  title : Option String
  content : Option String
  status : Option String
  visibility : Option String
deriving DecidableEq, Repr

/-- The validated create payload handed to the persistence insert. -/
structure ValidatedCreate where
  userId : Nat
  title : String
  content : Option String
  status : Option ItemStatus
  visibility : Option ItemVisibility
deriving DecidableEq, Repr

/-- Modelled from the spec: validateCreate — title required and non-empty;
status and visibility, if present, must be enum members; any violation is
Failure(InvalidPayload, 400). -/
def validateCreate (raw : RawCreatePayload) : Outcome ValidatedCreate :=
  match raw.title with
  | none => .failure .invalidPayload 400 "Title is required."
  | some t =>
    if t = "" then .failure .invalidPayload 400 "Title is required."
    else
      match validateStatusField raw.status with
      | .failure k sc m => .failure k sc m
      | .success st =>
        match validateVisibilityField raw.visibility with
        | .failure k sc m => .failure k sc m
        | .success vis => .success ⟨raw.userId, t, raw.content, st, vis⟩

/-- Build the persisted record for a validated create; absent enum fields
take the entity defaults, and both timestamps are set to the insert time. -/
def mkItem (newId : Nat) (v : ValidatedCreate) (now : Nat) : Item :=
  { id := newId
    owner := v.userId
    title := v.title
    content := v.content
    status := v.status.getD .active
    visibility := v.visibility.getD .priv
    createdAt := now
    updatedAt := now }

/-- Modelled from the spec: create — validator first, persistence insert
only on success.  The boolean records whether the insert collaborator was
invoked. -/
def createItemSvc (store : List Item) (raw : RawCreatePayload) (newId now : Nat) :
    Outcome Nat × List Item × Bool :=
  match validateCreate raw with
  | .failure k sc m => (.failure k sc m, store, false)
  | .success v => (.success newId, store ++ [mkItem newId v now], true)

/-- The untrusted update payload: every field optional. -/
structure RawUpdatePayload where
  title : Option String
  content : Option String
  status : Option String
  visibility : Option String
deriving DecidableEq, Repr

/-- The validated update payload. -/
structure UpdatePayload where
  title : Option String
  content : Option String
  status : Option ItemStatus
  visibility : Option ItemVisibility
deriving DecidableEq, Repr

/-- An update payload with zero fields set. -/
def UpdatePayload.isEmpty (p : UpdatePayload) : Bool :=
  p.title.isNone && p.content.isNone && p.status.isNone && p.visibility.isNone

/-- Modelled from the spec: validateUpdate — all fields optional; enum
membership enforced when status or visibility is present. -/
def validateUpdate (raw : RawUpdatePayload) : Outcome UpdatePayload :=
  match validateStatusField raw.status with
  | .failure k sc m => .failure k sc m
  | .success st =>
    match validateVisibilityField raw.visibility with
    | .failure k sc m => .failure k sc m
    | .success vis => .success ⟨raw.title, raw.content, st, vis⟩

/-- Modelled from the spec: apply a validated partial update — an update
with zero fields set is a no-op leaving every field, updatedAt included,
unchanged; otherwise set fields are merged and updatedAt is refreshed. -/
def applyUpdate (it : Item) (p : UpdatePayload) (now : Nat) : Item :=
  if p.isEmpty then it
  else
    { it with
      title := p.title.getD it.title
      content := match p.content with | some c => some c | none => it.content
      status := p.status.getD it.status
      visibility := p.visibility.getD it.visibility
      updatedAt := now }

/-- Modelled from the spec: update — fetch by id, write guard (failure folded
into NotFound), validator, then single-row write-back. -/
def updateItemSvc (store : List Item) (id requester : Nat) (raw : RawUpdatePayload)
    (now : Nat) : Outcome Item × List Item :=
  match findById store id with
  | none => (notFoundFailure, store)
  | some it =>
    if authorizeWrite it requester then
      match validateUpdate raw with
      | .failure k sc m => (.failure k sc m, store)
      | .success p =>
        let it2 := applyUpdate it p now
        (.success it2, replaceById store id it2)
    else (notFoundFailure, store)

/-- Modelled from the spec: delete — fetch by id, write guard (failure folded
into NotFound), then single-row removal. -/
def deleteItemSvc (store : List Item) (id requester : Nat) :
    Outcome String × List Item :=
  match findById store id with
  | none => (notFoundFailure, store)
  | some it =>
    if authorizeWrite it requester then (.success "Item deleted successfully.", removeById store id)
    else (notFoundFailure, store)

/-! ## Theorems -/

/-- Helper: compiling any entry list that contains a non-allow-listed key
yields Failure(InvalidFilter, 400), whichever offending entry is hit
first. -/
theorem compileEntries_unknown_key (l : List (String × String)) (k : String)
    (hmem : k ∈ l.map Prod.fst) (hk : k ∉ allowedFilterFields) :
    ∃ m, compileEntries l = .failure .invalidFilter 400 m := by
  induction l with
  | nil => simp at hmem
  | cons kv rest ih =>
    obtain ⟨k1, v1⟩ := kv
    simp only [List.map_cons, List.mem_cons] at hmem
    by_cases h1 : k1 ∈ allowedFilterFields
    · rcases hmem with heq | hmem
      · subst heq
        exact absurd h1 hk
      · obtain ⟨m, hm⟩ := ih hmem
        cases hc : coerceField k1 v1 with
        | some c => exact ⟨m, by simp [compileEntries, h1, hc, hm]⟩
        | none =>
          exact ⟨"Invalid filter value for field: " ++ k1, by simp [compileEntries, h1, hc]⟩
    · exact ⟨"Invalid filter field: " ++ k1, by simp [compileEntries, h1]⟩

/-- C1: for every raw query object containing a key that, after the
structural keys page, sort, limit are stripped, is not in the allow-list of
filterable fields, filter compilation returns Failure(InvalidFilter) with
status code 400 — the whole filter is rejected, not silently filtered. -/
theorem compile_rejects_unknown_key (raw : List (String × String)) (k : String)
    (hmem : k ∈ (stripStructural raw).map Prod.fst)
    (hk : k ∉ allowedFilterFields) :
    ∃ m, compile raw = .failure .invalidFilter 400 m :=
  compileEntries_unknown_key (stripStructural raw) k hmem hk

/-- Witness for C1 at the spec's own example, the raw query (foo, x). -/
theorem compile_rejects_unknown_key_witness :
    ∃ m, compile [("foo", "x")] = .failure .invalidFilter 400 m :=
  compile_rejects_unknown_key [("foo", "x")] "foo" (by decide) (by decide)

/-- C2: a getById request by user A for a private item owned by a different
user B returns Failure(NotFound, 404), and the outcome value is identical to
that of a getById request for any id absent from the store. -/
theorem getItemById_private_other_user_not_found (store : List Item)
    (id rid : Nat) (it : Item) (h1 : findById store id = some it)
    (h2 : it.visibility = .priv) (h3 : it.owner ≠ rid) :
    getItemByIdSvc store id rid = .failure .notFound 404 "Item not found." ∧
    ∀ id2, findById store id2 = none →
      getItemByIdSvc store id rid = getItemByIdSvc store id2 rid := by
  have hread : authorizeRead it rid = false := by
    simp [authorizeRead, h2, h3]
  constructor
  · simp [getItemByIdSvc, h1, hread, notFoundFailure]
  · intro id2 h4
    simp [getItemByIdSvc, h1, h4, hread]

/-- Example store for C2: one private item owned by user 5. -/
def itemC2 : Item :=
  { id := 1, owner := 5, title := "b", content := none, status := .active,
    visibility := .priv, createdAt := 0, updatedAt := 0 }

/-- Witness for C2: user 6 requesting item 1 gets the same NotFound outcome
as requesting the absent id 2. -/
theorem getItemById_private_other_user_not_found_witness :
    getItemByIdSvc [itemC2] 1 6 = .failure .notFound 404 "Item not found." ∧
    getItemByIdSvc [itemC2] 1 6 = getItemByIdSvc [itemC2] 2 6 := by
  have h := getItemById_private_other_user_not_found [itemC2] 1 6 itemC2 rfl rfl (by decide)
  exact ⟨h.1, h.2 2 rfl⟩

/-- C3: a limit input that is absent, non-numeric, or below 1 plans as
DEFAULT_LIMIT, and any limit above MAX_LIMIT is clamped to MAX_LIMIT —
never an error, never the raw value. -/
theorem plan_limit_defaults_and_clamps (f : Filter) (p : JsValueNum) (s : String) :
    (∀ lim : Option String,
      (lim = none ∨ jsNumber lim = .nan ∨ ∃ n, jsNumber lim = .num n ∧ n < 1) →
      (plan f p (jsNumber lim) s).limit = DEFAULT_LIMIT) ∧
    (∀ n : Int, MAX_LIMIT < n → (plan f p (.num n) s).limit = MAX_LIMIT) := by
  constructor
  · intro lim h
    rcases h with h | h | ⟨n, hn, hlt⟩
    · subst h
      simp [plan, jsNumber, planLimit]
    · simp [plan, h, planLimit]
    · simp [plan, hn, planLimit, hlt]
  · intro n h
    simp only [plan, planLimit, MAX_LIMIT, DEFAULT_LIMIT] at h ⊢
    rw [if_neg (by omega)]
    omega

/-- Witness for C3 at a non-numeric limit and at the spec's example limit
10000 against MAX_LIMIT = 100. -/
theorem plan_limit_defaults_and_clamps_witness :
    (plan [] .nan (jsNumber (some "abc")) "createdAt").limit = DEFAULT_LIMIT ∧
    (plan [] .nan (.num 10000) "createdAt").limit = MAX_LIMIT := by
  have h := plan_limit_defaults_and_clamps [] .nan "createdAt"
  exact ⟨h.1 (some "abc") (Or.inr (Or.inl (by decide))), h.2 10000 (by decide)⟩

/-- C7: a page input that is absent, non-numeric, or below 1 plans as
page 1. -/
theorem plan_page_defaults_to_one (f : Filter) (l : JsValueNum) (s : String) :
    ∀ p : Option String,
      (p = none ∨ jsNumber p = .nan ∨ ∃ n, jsNumber p = .num n ∧ n < 1) →
      (plan f (jsNumber p) l s).page = 1 := by
  intro p h
  rcases h with h | h | ⟨n, hn, hlt⟩
  · subst h
    simp [plan, jsNumber, planPage]
  · simp [plan, h, planPage]
  · simp [plan, hn, planPage, hlt]

/-- Witness for C7 at the below-1 page value 0. -/
theorem plan_page_defaults_to_one_witness :
    (plan [] (jsNumber (some "0")) .nan "title").page = 1 :=
  plan_page_defaults_to_one [] .nan "title" (some "0")
    (Or.inr (Or.inr ⟨0, by decide, by decide⟩))

/-- Helper: writing back the very record that fetch-by-id returned leaves
the store unchanged. -/
theorem replaceById_of_findById (store : List Item) (id : Nat) (it : Item)
    (h : findById store id = some it) : replaceById store id it = store := by
  induction store with
  | nil => simp [findById] at h
  | cons x rest ih =>
    simp only [findById] at h
    simp only [replaceById]
    split at h
    · rename_i hx
      injection h with h2
      subst h2
      rw [if_pos hx]
    · rename_i hx
      rw [if_neg hx, ih h]

/-- C4: for an existing item, an owner update with zero fields set succeeds
with the current item and changes nothing — no field, updatedAt included,
mutates, and the store is unchanged. -/
theorem update_empty_payload_noop (store : List Item) (id now : Nat) (it : Item)
    (h : findById store id = some it) :
    updateItemSvc store id it.owner ⟨none, none, none, none⟩ now = (.success it, store) := by
  have hw : authorizeWrite it it.owner = true := by simp [authorizeWrite]
  have hv : validateUpdate ⟨none, none, none, none⟩ =
      .success ⟨none, none, none, none⟩ := rfl
  have ha : applyUpdate it ⟨none, none, none, none⟩ now = it := rfl
  simp [updateItemSvc, h, hw, hv, ha, replaceById_of_findById store id it h]

/-- Example store for C4: one item owned by user 5. -/
def itemC4 : Item :=
  { id := 3, owner := 5, title := "t", content := some "body", status := .inactive,
    visibility := .pub, createdAt := 11, updatedAt := 12 }

/-- Witness for C4: the empty update at time 99 returns the item byte-for-byte
and leaves the store as it was. -/
theorem update_empty_payload_noop_witness :
    updateItemSvc [itemC4] 3 5 ⟨none, none, none, none⟩ 99 = (.success itemC4, [itemC4]) :=
  update_empty_payload_noop [itemC4] 3 99 itemC4 rfl

/-- Helper: any create payload whose status or visibility value fails enum
membership is rejected by the validator with Failure(InvalidPayload, 400). -/
theorem validateCreate_invalid_enum (raw : RawCreatePayload)
    (h : (∃ s, raw.status = some s ∧ ItemStatus.parse s = none) ∨
         (∃ s, raw.visibility = some s ∧ ItemVisibility.parse s = none)) :
    ∃ m, validateCreate raw = .failure .invalidPayload 400 m := by
  cases hti : raw.title with
  | none => exact ⟨"Title is required.", by simp [validateCreate, hti]⟩
  | some t =>
    by_cases ht : t = ""
    · exact ⟨"Title is required.", by simp [validateCreate, hti, ht]⟩
    · rcases h with ⟨s, hs, hp⟩ | ⟨s, hs, hp⟩
      · refine ⟨"Invalid item status.", ?_⟩
        simp [validateCreate, hti, ht, hs, validateStatusField, hp]
      · cases hst : raw.status with
        | none =>
          refine ⟨"Invalid item visibility.", ?_⟩
          simp [validateCreate, hti, ht, hst, hs, validateStatusField,
            validateVisibilityField, hp]
        | some s2 =>
          cases hps : ItemStatus.parse s2 with
          | none =>
            refine ⟨"Invalid item status.", ?_⟩
            simp [validateCreate, hti, ht, hst, validateStatusField, hps]
          | some st =>
            refine ⟨"Invalid item visibility.", ?_⟩
            simp [validateCreate, hti, ht, hst, hs, validateStatusField, hps,
              validateVisibilityField, hp]

/-- C5: a create payload whose status or visibility is present but outside
its closed enum returns Failure(InvalidPayload, 400), the store is
untouched, and the insert collaborator is never invoked. -/
theorem create_invalid_enum_rejected_no_insert (store : List Item)
    (raw : RawCreatePayload) (newId now : Nat)
    (h : (∃ s, raw.status = some s ∧ ItemStatus.parse s = none) ∨
         (∃ s, raw.visibility = some s ∧ ItemVisibility.parse s = none)) :
    ∃ m, createItemSvc store raw newId now =
      (.failure .invalidPayload 400 m, store, false) := by
  obtain ⟨m, hm⟩ := validateCreate_invalid_enum raw h
  exact ⟨m, by simp [createItemSvc, hm]⟩

/-- Witness for C5: creating with the out-of-enum status value bogus fails
with InvalidPayload 400 and zero insert calls. -/
theorem create_invalid_enum_rejected_no_insert_witness :
    ∃ m, createItemSvc [] ⟨1, some "t", none, some "bogus", none⟩ 1 0 =
      (.failure .invalidPayload 400 m, [], false) :=
  create_invalid_enum_rejected_no_insert [] ⟨1, some "t", none, some "bogus", none⟩ 1 0
    (Or.inl ⟨"bogus", rfl, rfl⟩)

/-- C6: a delete requested by a non-owner returns Failure(NotFound, 404),
the persisted state is unchanged, and the item is still retrievable by its
owner from the post-operation store. -/
theorem delete_not_owner_not_found_state_unchanged (store : List Item)
    (id requester : Nat) (it : Item) (h1 : findById store id = some it)
    (h2 : it.owner ≠ requester) :
    deleteItemSvc store id requester = (.failure .notFound 404 "Item not found.", store) ∧
    getItemByIdSvc (deleteItemSvc store id requester).2 id it.owner = .success it := by
  have hw : authorizeWrite it requester = false := by
    simp [authorizeWrite, h2]
  have hdel : deleteItemSvc store id requester = (notFoundFailure, store) := by
    simp [deleteItemSvc, h1, hw]
  have hr : authorizeRead it it.owner = true := by simp [authorizeRead]
  refine ⟨by rw [hdel]; rfl, ?_⟩
  rw [hdel]
  simp [getItemByIdSvc, h1, hr]

/-- Example store for C6: one private item owned by user 5. -/
def itemC6 : Item :=
  { id := 1, owner := 5, title := "m", content := none, status := .archived,
    visibility := .priv, createdAt := 1, updatedAt := 2 }

/-- Witness for C6: user 6 deleting item 1 gets NotFound, and owner 5 can
still fetch the item from the resulting store. -/
theorem delete_not_owner_not_found_state_unchanged_witness :
    deleteItemSvc [itemC6] 1 6 = (.failure .notFound 404 "Item not found.", [itemC6]) ∧
    getItemByIdSvc (deleteItemSvc [itemC6] 1 6).2 1 5 = .success itemC6 :=
  delete_not_owner_not_found_state_unchanged [itemC6] 1 6 itemC6 rfl (by decide)

/-- C8: when req.user is set, the listItems handler responds 200 with the
raw resolved service value for every possible resolved value — it branches
on no outcome discriminant, so no Failure status code can surface through
it — and every service throw yields 500 with the fixed generic message. -/
theorem listItems_forwards_service_value {α : Type} (req : Req) (u : User)
    (svc : GetItemsArgs → Settled α) (hu : req.user = some u) :
    (∀ v : α, svc (listCallArgs u req) = .resolves v →
      listItemsCtrl req svc = ⟨StatusCode.OK, .payload v, true⟩) ∧
    (svc (listCallArgs u req) = .throws →
      listItemsCtrl req svc =
        ⟨StatusCode.INTERNAL_SERVER_ERROR, .message "Failed to fetch list of items.", true⟩) := by
  constructor
  · intro v hv
    simp [listItemsCtrl, hu, hv]
  · intro hv
    simp [listItemsCtrl, hu, hv]

/-- Example request for C8: user 7 with a filter-and-pagination query. -/
def reqC8 : Req :=
  { user := some ⟨7⟩, query := [("page", "2"), ("status", "active")],
    paramsId := "1", body := ⟨none, none, none, none, none⟩ }

/-- Witness for C8: a service resolving with the bare value 5 is forwarded
verbatim with status 200. -/
theorem listItems_forwards_service_value_witness :
    @listItemsCtrl Nat reqC8 (fun _ => .resolves 5) = ⟨StatusCode.OK, .payload 5, true⟩ :=
  (listItems_forwards_service_value reqC8 ⟨7⟩ (fun _ => .resolves 5) rfl).1 5 rfl

/-- C9: the create and update handlers build the forwarded payload from the
body's description key, and a caller-supplied body field named content is
never forwarded: the handler output is invariant under any change to it. -/
theorem handlers_never_forward_content {α β : Type} (req : Req) (c : Option String)
    (svcC : CreateCallArgs → Settled (SvcOutcome α))
    (svcU : JsValueNum → Nat → UpdateCallArgs → Settled (SvcOutcome β)) :
    (∀ u : User, (createCallArgs u req.body).description = req.body.description ∧
      (updateCallArgs req.body).description = req.body.description) ∧
    createItemCtrl { req with body := { req.body with content := c } } svcC =
      createItemCtrl req svcC ∧
    updateItemCtrl { req with body := { req.body with content := c } } svcU =
      updateItemCtrl req svcU := by
  obtain ⟨user0, query0, pid0, ⟨t0, d0, s0, v0, c0⟩⟩ := req
  exact ⟨fun u => ⟨rfl, rfl⟩, rfl, rfl⟩

/-- C10: with req.user unset, every one of the five handlers makes no
service call and responds 500 with its fixed generic message — never 401
or 403. -/
theorem missing_user_yields_500_no_service_call {α : Type} (req : Req)
    (hu : req.user = none)
    (svcL : GetItemsArgs → Settled α)
    (svcG : JsValueNum → Nat → Settled (SvcOutcome α))
    (svcC : CreateCallArgs → Settled (SvcOutcome α))
    (svcU : JsValueNum → Nat → UpdateCallArgs → Settled (SvcOutcome α))
    (svcD : JsValueNum → Nat → Settled (SvcOutcome α)) :
    listItemsCtrl req svcL =
      ⟨StatusCode.INTERNAL_SERVER_ERROR, .message "Failed to fetch list of items.", false⟩ ∧
    getItemByIdCtrl req svcG =
      ⟨StatusCode.INTERNAL_SERVER_ERROR, .message "Failed to fetch item.", false⟩ ∧
    createItemCtrl req svcC =
      ⟨StatusCode.INTERNAL_SERVER_ERROR, .message "Failed to save item.", false⟩ ∧
    updateItemCtrl req svcU =
      ⟨StatusCode.INTERNAL_SERVER_ERROR, .message "Failed to update item.", false⟩ ∧
    deleteItemCtrl req svcD =
      ⟨StatusCode.INTERNAL_SERVER_ERROR, .message "Failed to delete item.", false⟩ := by
  refine ⟨?_, ?_, ?_, ?_, ?_⟩ <;>
    simp [listItemsCtrl, getItemByIdCtrl, createItemCtrl, updateItemCtrl,
      deleteItemCtrl, hu]

/-- Example request for C10: no authenticated user attached. -/
def reqC10 : Req :=
  { user := none, query := [], paramsId := "1", body := ⟨none, none, none, none, none⟩ }

/-- Witness for C10: all five handlers, given throwing services and no user,
answer 500 with their generic messages and zero service calls. -/
theorem missing_user_yields_500_no_service_call_witness :
    @listItemsCtrl Nat reqC10 (fun _ => .throws) =
      ⟨StatusCode.INTERNAL_SERVER_ERROR, .message "Failed to fetch list of items.", false⟩ ∧
    @getItemByIdCtrl Nat reqC10 (fun _ _ => .throws) =
      ⟨StatusCode.INTERNAL_SERVER_ERROR, .message "Failed to fetch item.", false⟩ ∧
    @createItemCtrl Nat reqC10 (fun _ => .throws) =
      ⟨StatusCode.INTERNAL_SERVER_ERROR, .message "Failed to save item.", false⟩ ∧
    @updateItemCtrl Nat reqC10 (fun _ _ _ => .throws) =
      ⟨StatusCode.INTERNAL_SERVER_ERROR, .message "Failed to update item.", false⟩ ∧
    @deleteItemCtrl Nat reqC10 (fun _ _ => .throws) =
      ⟨StatusCode.INTERNAL_SERVER_ERROR, .message "Failed to delete item.", false⟩ :=
  missing_user_yields_500_no_service_call reqC10 rfl (fun _ => .throws)
    (fun _ _ => .throws) (fun _ => .throws) (fun _ _ _ => .throws) (fun _ _ => .throws)

end RajantCMS
